import Mathlib

/-!
Shallow embedding of the CVAT-Dataset-Converter-Toolkit frontend
(`src/frontend/js/app.js`, transport wrappers in
`src/backend/frontend/js/api.js`).

The frontend is a single-page job controller: an in-memory `state` object,
a validation predicate, a status-poll loop driven by one timeout/interval
pair, and four transport wrappers (submit / poll / cancel / download).
DOM handling (`dom.js`) is modelled as an `Effect` trace: every observable
action of a handler (status line, log line, enabling inputs, scheduling or
clearing a timer, issuing a transport call) becomes one trace element, in
the order the source performs it.  Machine-level concerns (actual timers,
fetch) are represented by the ids and outcome parameters the handlers
consume.
-/

/-- JavaScript truthiness of a nullable string (`null` and `""` are falsy),
used for checks such as `if (!state.ticketId)` in `app.js`. -/
def strOptTruthy : Option String → Bool
  | none => false
  | some v => decide (v ≠ "")

/-- The module-level `state` object of `app.js` (lines 29-50), plus
`nextTimerId`, a counter standing for the browser's supply of fresh
timer ids (`window.setTimeout` / `window.setInterval` return values). -/
structure FrontendState where
  file : Option String
  inputFormat : String
  targetFormat : String
  featureType : String
  isUploading : Bool
  ticketId : Option String
  ticketState : String
  statusPollTimeoutId : Option Nat
  statusPollIntervalId : Option Nat
  labelMetaShown : Bool
  lastStatusState : Option String
  lastUploadProgressPct : Option Int
  nextTimerId : Nat
deriving DecidableEq, Repr

/-- The initial value of the `state` object in `app.js`. -/
def initState : FrontendState :=
  { file := none
    inputFormat := ""
    targetFormat := ""
    featureType := ""
    isUploading := false
    ticketId := none
    ticketState := "idle"
    statusPollTimeoutId := none
    statusPollIntervalId := none
    labelMetaShown := false
    lastStatusState := none
    lastUploadProgressPct := none
    nextTimerId := 0 }

/-- `isStateValidForUpload` (`app.js` lines 145-157): a file, an input
format and a feature type are required; a target format is additionally
required unless the feature type is `crop_objects`. -/
def isStateValidForUpload (s : FrontendState) : Bool :=
  if s.file = none ∨ s.inputFormat = "" ∨ s.featureType = "" then false
  else if s.featureType = "crop_objects" then true
  else decide (s.targetFormat ≠ "")

/-- `isProcessingTicketState` (`app.js` lines 162-170).  Note that the
source includes `"uploading"` in this list. -/
def isProcessingTicketState (t : String) : Bool :=
  decide (t = "uploading" ∨ t = "uploaded" ∨ t = "extracting_label_meta" ∨
          t = "labels_meta_extracted" ∨ t = "processing_dataset")

/-- The main button rendering computed by `refreshNextButtonState`. -/
structure ButtonView where
  label : String
  enabled : Bool
deriving DecidableEq, Repr

/-- `refreshNextButtonState` (`app.js` lines 175-210) as a pure view
function from the state to the button label/enabled pair. -/
def refreshNextButtonState (s : FrontendState) : ButtonView :=
  if strOptTruthy s.ticketId = false ∨ s.ticketState = "idle" then
    { label := "Upload & Process"
      enabled := isStateValidForUpload s && !s.isUploading }
  else if s.isUploading then
    { label := "Uploading…", enabled := false }
  else if isProcessingTicketState s.ticketState then
    { label := "Cancel", enabled := true }
  else if s.ticketState = "ready" then
    { label := "Download", enabled := true }
  else
    { label := "Start over", enabled := true }

/-- The branch the main button's click listener (`app.js` lines 103-129)
dispatches to in a given state. -/
inductive ClickKind where
  | ignore
  | startUpload
  | cancelJob
  | downloadJob
  | resetJob
deriving DecidableEq, Repr

/-- Dispatch of the main button's click listener (`app.js` lines 103-129). -/
def clickAction (s : FrontendState) : ClickKind :=
  if s.isUploading then ClickKind.ignore
  else if strOptTruthy s.ticketId = false ∨ s.ticketState = "idle" then
    ClickKind.startUpload
  else if isProcessingTicketState s.ticketState then ClickKind.cancelJob
  else if s.ticketState = "ready" then ClickKind.downloadJob
  else ClickKind.resetJob

/-- Observable actions of the handlers: DOM updates, log lines, timer
operations and transport calls, in source order. -/
inductive Effect where
  | showStatusE (kind msg : String)
  | clearStatusE
  | appendLogE (msg : String)
  | clearLogE
  | setInputsDisabledE (disabled : Bool)
  | buttonE (view : ButtonView)
  | submitE (targetFormatSent ticketId : String)
  | cancelE (ticketId : String)
  | downloadE (ticketId : String)
  | saveBlobE (filename : String)
  | setTimeoutE (id : Nat)
  | setIntervalE (id : Nat)
  | clearTimeoutE (id : Nat)
  | clearIntervalE (id : Nat)
deriving DecidableEq, Repr

/-- Effects that schedule a new poll timer. -/
def isScheduleEffect : Effect → Bool
  | Effect.setTimeoutE _ => true
  | Effect.setIntervalE _ => true
  | _ => false

/-- `stopStatusPolling` (`app.js` lines 301-310): clears whichever of the
two poll timers is set and nulls both fields. -/
def stopStatusPolling (s : FrontendState) : FrontendState × List Effect :=
  ({ s with statusPollTimeoutId := none, statusPollIntervalId := none },
   (match s.statusPollTimeoutId with
    | some id => [Effect.clearTimeoutE id]
    | none => [])
   ++
   (match s.statusPollIntervalId with
    | some id => [Effect.clearIntervalE id]
    | none => []))

/-- `startStatusPolling` (`app.js` lines 277-296): warns and does nothing
without a ticket id; otherwise clears previous timers and schedules the
initial-delay timeout (the interval is only created when that timeout
later fires, see `fireInitialPollTimeout`). -/
def startStatusPolling (s : FrontendState) : FrontendState × List Effect :=
  if strOptTruthy s.ticketId = false then (s, [])
  else
    let stopped := stopStatusPolling s
    ({ stopped.1 with
        statusPollTimeoutId := some stopped.1.nextTimerId
        nextTimerId := stopped.1.nextTimerId + 1 },
     stopped.2 ++ [Effect.setTimeoutE stopped.1.nextTimerId])

/-- The text logged on reset and at page load. -/
def readyLogMsg : String :=
  "Ready. Select a dataset ZIP and click \"Upload & Process\"."

/-- `resetFrontendState` (`app.js` lines 556-572): stops polling, resets
all job-tracking fields to their initial values, re-enables inputs and
clears the status/log areas, while leaving the form selections alone. -/
def resetFrontendState (s : FrontendState) : FrontendState × List Effect :=
  let stopped := stopStatusPolling s
  let s2 : FrontendState :=
    { stopped.1 with
        ticketId := none
        ticketState := "idle"
        isUploading := false
        labelMetaShown := false
        lastStatusState := none
        lastUploadProgressPct := none }
  (s2,
   stopped.2 ++
   [Effect.setInputsDisabledE false, Effect.clearStatusE, Effect.clearLogE,
    Effect.appendLogE readyLogMsg,
    Effect.buttonE (refreshNextButtonState s2)])

/-- One per-label entry of the label metadata summary (`lbl.name`,
`lbl.count`, with `??`-defaults applied at the use site). -/
structure LabelEntry where
  name : Option String
  count : Option Int
deriving DecidableEq, Repr

/-- The optional `label_meta` object of a status response:
`image_count` / `box_count` are used only when they are numbers, and
`labels` only when it is an array. -/
structure LabelMeta where
  imageCount : Option Int
  boxCount : Option Int
  labels : Option (List LabelEntry)
deriving DecidableEq, Repr

/-- A parsed `/status` response body as `pollStatusOnce` consumes it.
`state = none` models an absent or falsy `status.state` (including the
`{ raw: text }` value `fetchUploadStatus` returns for non-JSON bodies);
`progress = some p` models `upload.progress` being present, of number
type and finite. -/
structure StatusResponse where
  state : Option String
  progress : Option ℚ
  labelMeta : Option LabelMeta
deriving DecidableEq, Repr

/-- `status && status.state ? status.state : "unknown"`
(`app.js` line 324). -/
def backendStateOf (resp : StatusResponse) : String :=
  match resp.state with
  | some v => if v ≠ "" then v else "unknown"
  | none => "unknown"

/-- Outcome of one awaited `fetchUploadStatus` call: a parsed response,
or a thrown error (whose optional `.message` feeds the catch branch). -/
inductive PollOutcome where
  | ok (resp : StatusResponse)
  | fail (errMessage : Option String)
deriving DecidableEq, Repr

/-- `err && err.message ? err.message : fallback`. -/
def optMsgOr (em : Option String) (fallback : String) : String :=
  match em with
  | some m => if m ≠ "" then m else fallback
  | none => fallback

/-- Log lines produced by the label-metadata block
(`app.js` lines 357-376). -/
def labelMetaEffects (meta : LabelMeta) : List Effect :=
  [Effect.appendLogE "Label metadata:"]
  ++ (match meta.imageCount with
      | some n => [Effect.appendLogE ("  Images: " ++ toString n)]
      | none => [])
  ++ (match meta.boxCount with
      | some n => [Effect.appendLogE ("  Boxes: " ++ toString n)]
      | none => [])
  ++ (let ls := meta.labels.getD []
      if ls.length > 0 then
        Effect.appendLogE "  Labels:" ::
          ls.map (fun l =>
            Effect.appendLogE
              ("    - " ++ l.name.getD "unknown" ++ ": " ++
                toString (l.count.getD 0)))
      else [])

/-- The state-change log step (`app.js` lines 339-342). -/
def stateChangeLog (s : FrontendState) (b : String) :
    FrontendState × List Effect :=
  if s.lastStatusState ≠ some b then
    ({ s with lastStatusState := some b },
     [Effect.appendLogE ("State: " ++ b)])
  else (s, [])

/-- The progress log step (`app.js` lines 344-347). -/
def progressLog (s : FrontendState) (pct : Option Int) :
    FrontendState × List Effect :=
  match pct with
  | some p =>
    if s.lastUploadProgressPct ≠ some p then
      ({ s with lastUploadProgressPct := some p },
       [Effect.appendLogE ("Upload progress: " ++ toString p ++ "%")])
    else (s, [])
  | none => (s, [])

/-- The once-per-ticket label-metadata surfacing step
(`app.js` lines 357-376). -/
def metaSurface (s : FrontendState) (lm : Option LabelMeta) :
    FrontendState × List Effect :=
  match lm with
  | some meta =>
    if s.labelMetaShown = false then
      ({ s with labelMetaShown := true }, labelMetaEffects meta)
    else (s, [])
  | none => (s, [])

/-- The terminal-failure check of a poll (`app.js` lines 381-387):
polling stops exactly for `error`, `cancelled` and `unknown`. -/
def terminalStop (s : FrontendState) (b : String) :
    FrontendState × List Effect :=
  if b = "error" ∨ b = "cancelled" ∨ b = "unknown" then stopStatusPolling s
  else (s, [])

/-- `pollStatusOnce` (`app.js` lines 315-401): a single `/status` call for
the current ticket, with the transport outcome passed in. -/
def pollStatusOnce (s : FrontendState) (out : PollOutcome) :
    FrontendState × List Effect :=
  if strOptTruthy s.ticketId = false then (s, [])
  else
    match out with
    | PollOutcome.ok resp =>
      let b := backendStateOf resp
      let s1 : FrontendState := { s with ticketState := b }
      let pct : Option Int := resp.progress.map (fun p => round (p * 100))
      let step1 := stateChangeLog s1 b
      let step2 := progressLog step1.1 pct
      let tid := step2.1.ticketId.getD ""
      let statusMsg :=
        "Ticket " ++ tid ++ " — state: " ++ b ++
          (match pct with
           | some p => " • upload: " ++ toString p ++ "%"
           | none => "")
      let step3 := metaSurface step2.1 resp.labelMeta
      let step4 := terminalStop step3.1 b
      (step4.1,
       step1.2 ++ step2.2 ++ [Effect.showStatusE "info" statusMsg]
        ++ step3.2 ++ step4.2
        ++ [Effect.buttonE (refreshNextButtonState step4.1)])
    | PollOutcome.fail em =>
      let msg := optMsgOr em "Unable to fetch status from backend."
      let stopped := stopStatusPolling s
      (stopped.1,
       [Effect.showStatusE "error" msg,
        Effect.appendLogE ("Status polling error: " ++ msg)]
        ++ stopped.2
        ++ [Effect.buttonE (refreshNextButtonState stopped.1)])

/-- The callback of the initial-delay timeout inside `startStatusPolling`
(`app.js` lines 286-295): performs the first poll, then unconditionally
installs the repeating interval. -/
def fireInitialPollTimeout (s : FrontendState) (out : PollOutcome) :
    FrontendState × List Effect :=
  let first := pollStatusOnce s out
  ({ first.1 with
      statusPollIntervalId := some first.1.nextTimerId
      nextTimerId := first.1.nextTimerId + 1 },
   first.2 ++ [Effect.setIntervalE first.1.nextTimerId])

/-- A sequence of poll steps against the same controller state. -/
def pollRun (s : FrontendState) (outs : List PollOutcome) :
    FrontendState × List Effect :=
  match outs with
  | [] => (s, [])
  | o :: rest =>
    let first := pollStatusOnce s o
    let next := pollRun first.1 rest
    (next.1, first.2 ++ next.2)

/-- Number of times a trace surfaces the label-metadata block (counted by
its unconditional header line). -/
def countLabelMetaHeader (tr : List Effect) : Nat :=
  tr.countP (fun e => decide (e = Effect.appendLogE "Label metadata:"))

/-- Outcome of one awaited `uploadDataset` call: a parsed acknowledgement
(with optional `message`, `status` and `state` fields, all subject to
truthiness checks) or a thrown error. -/
inductive SubmitOutcome where
  | ok (message status ackState : Option String)
  | fail (errMessage : Option String)
deriving DecidableEq, Repr

/-- The validation error message of `handleStartUpload`
(`app.js` lines 408-411). -/
def invalidFormMsg : String :=
  "Please select a ZIP file, input format, feature type, and (if applicable) target format."

/-- `state.featureType === "crop_objects" ? "" : state.targetFormat`
(`app.js` lines 429-430). -/
def targetFormatToSend (s : FrontendState) : String :=
  if s.featureType = "crop_objects" then "" else s.targetFormat

/-- The state of `app.js` right after `handleStartUpload` records the new
ticket (lines 415-420). -/
def submitStartState (s : FrontendState) (tid : String) : FrontendState :=
  { s with
      ticketId := some tid
      ticketState := "uploading"
      labelMetaShown := false
      lastStatusState := none
      lastUploadProgressPct := none }

/-- The state after `handleStartUpload` has also cleared old poll timers
and set `isUploading` (lines 433-435). -/
def submitLockedState (s : FrontendState) (tid : String) : FrontendState :=
  { (stopStatusPolling (submitStartState s tid)).1 with isUploading := true }

/-- Everything `handleStartUpload` does before the transport call returns
(lines 415-447): clear status/log, record the ticket, clear the previous
poll timers, lock the inputs, refresh the button and issue the submit
request with the computed target format. -/
def submitCommonEffects (s : FrontendState) (tid : String) : List Effect :=
  [Effect.clearStatusE, Effect.clearLogE,
   Effect.appendLogE ("Starting new job: " ++ tid),
   Effect.appendLogE "Uploading dataset to backend…"]
  ++ (stopStatusPolling (submitStartState s tid)).2
  ++ [Effect.setInputsDisabledE true,
      Effect.buttonE (refreshNextButtonState (submitLockedState s tid)),
      Effect.submitE (targetFormatToSend s) tid]

/-- `handleStartUpload` (`app.js` lines 406-485), with the fresh ticket id
(from `getSessionId`) and the transport outcome passed in. -/
def handleStartUpload (s : FrontendState) (tid : String)
    (out : SubmitOutcome) : FrontendState × List Effect :=
  if isStateValidForUpload s then
    let sC := submitLockedState s tid
    match out with
    | SubmitOutcome.ok msg st ack =>
      let sD : FrontendState :=
        if strOptTruthy ack then { sC with ticketState := ack.getD "" }
        else sC
      let m :=
        if strOptTruthy msg then msg.getD ""
        else if strOptTruthy st then st.getD "" ++ ": upload request sent."
        else "Upload request sent successfully."
      let started := startStatusPolling sD
      let sF : FrontendState := { started.1 with isUploading := false }
      (sF,
       submitCommonEffects s tid ++
       ([Effect.appendLogE "Upload completed on backend.",
         Effect.showStatusE "success"
           (m ++ " Tracking ticket " ++ tid ++ "…")]
        ++ started.2
        ++ [Effect.buttonE (refreshNextButtonState sF)]))
    | SubmitOutcome.fail em =>
      let m := optMsgOr em "Network error while sending upload request."
      let resetStep := resetFrontendState sC
      let sF : FrontendState := { resetStep.1 with isUploading := false }
      (sF,
       submitCommonEffects s tid ++
       ([Effect.showStatusE "error"
           (m ++ " (Is the backend running at the configured API URL?)"),
         Effect.appendLogE ("Upload error: " ++ m)]
        ++ resetStep.2
        ++ [Effect.buttonE (refreshNextButtonState sF)]))
  else (s, [Effect.showStatusE "error" invalidFormMsg])

/-- Outcome of one awaited `cancelTicket` call. -/
inductive CancelOutcome where
  | ok
  | fail (errMessage : Option String)
deriving DecidableEq, Repr

/-- Outcome of one awaited `downloadOutput` call. -/
inductive DownloadOutcome where
  | ok
  | fail (errMessage : Option String)
deriving DecidableEq, Repr

/-- `handleCancel` (`app.js` lines 490-511): invokes the transport cancel
and, in its `finally` block, stops polling and resets to idle whatever
the outcome was. -/
def handleCancel (s : FrontendState) (out : CancelOutcome) :
    FrontendState × List Effect :=
  if strOptTruthy s.ticketId = false then (s, [])
  else
    let tid := s.ticketId.getD ""
    let branch :=
      match out with
      | CancelOutcome.ok =>
        [Effect.appendLogE "Ticket cancelled and cleaned up by backend."]
      | CancelOutcome.fail em =>
        let m := optMsgOr em "Failed to cancel ticket."
        [Effect.appendLogE ("Cancel error: " ++ m),
         Effect.showStatusE "error" m]
    let stopped := stopStatusPolling s
    let resetStep := resetFrontendState stopped.1
    (resetStep.1,
     [Effect.appendLogE ("Cancelling ticket " ++ tid ++ "…"),
      Effect.showStatusE "info" "Cancelling current job…",
      Effect.cancelE tid]
     ++ branch ++ stopped.2 ++ resetStep.2)

/-- `handleDownload` (`app.js` lines 517-550): invokes the transport
download, saves the blob on success, and in its `finally` block stops
polling and resets to idle whatever the outcome was. -/
def handleDownload (s : FrontendState) (out : DownloadOutcome) :
    FrontendState × List Effect :=
  if strOptTruthy s.ticketId = false then (s, [])
  else
    let tid := s.ticketId.getD ""
    let branch :=
      match out with
      | DownloadOutcome.ok =>
        [Effect.saveBlobE (tid ++ "_output.zip"),
         Effect.appendLogE "Download complete. Cleaning up and resetting UI.",
         Effect.showStatusE "success" "Download complete."]
      | DownloadOutcome.fail em =>
        let m := optMsgOr em "Download failed."
        [Effect.appendLogE ("Download error: " ++ m),
         Effect.showStatusE "error" m]
    let stopped := stopStatusPolling s
    let resetStep := resetFrontendState stopped.1
    (resetStep.1,
     [Effect.appendLogE ("Downloading output for ticket " ++ tid ++ "…"),
      Effect.showStatusE "info" "Downloading processed dataset…",
      Effect.downloadE tid]
     ++ branch ++ stopped.2 ++ resetStep.2)

/-- The `detail` field of a structured error payload, when truthy:
either a FastAPI-style array of field errors (each contributing its
`msg`) or a scalar whose `String(...)` conversion is recorded. -/
inductive ErrorDetail where
  | fieldErrors (msgs : List String)
  | text (s : String)
deriving DecidableEq, Repr

/-- One HTTP response as the four wrappers in
`src/backend/frontend/js/api.js` observe it.  `isJson` is the
`content-type` check; `errorJson = none` models `response.json()`
throwing on the error path, `some none` a parsed payload without a
truthy `detail`, and `some (some d)` a truthy `detail`. -/
structure HttpResponse where
  ok : Bool
  status : Nat
  isJson : Bool
  errorJson : Option (Option ErrorDetail)
deriving DecidableEq, Repr

/-- The acknowledgement value `uploadDataset` resolves with: the parsed
JSON body, or `{ raw: text }` for a non-JSON success response. -/
inductive AckPayload where
  | parsed (message status ackState : Option String)
  | raw (text : String)
deriving DecidableEq, Repr

/-- Modelled from the spec: the error-normalization rule of §4.2 in its
own words — flatten a structured `detail` (joining field messages with a
semicolon), otherwise use the generic status-derived message.  Used as
the specification side of the refinement proved about the four embedded
transport wrappers. -/
def specNormalizedMessage (generic : String) (r : HttpResponse) : String :=
  if r.isJson then
    match r.errorJson with
    | some (some (ErrorDetail.fieldErrors msgs)) =>
      String.intercalate "; " msgs
    | some (some (ErrorDetail.text t)) => t
    | _ => generic
  else generic

/-- `uploadDataset` (`api.js` lines 24-77).  The parsed-JSON
acknowledgement and the raw body text are passed in for the two success
shapes. -/
def uploadDatasetResult (file : Option String) (r : HttpResponse)
    (jsonAck : AckPayload) (bodyText : String) :
    Except String AckPayload :=
  match file with
  | none => Except.error "No file selected."
  | some _ =>
    if r.ok = false then
      Except.error
        (if r.isJson then
          match r.errorJson with
          | some (some (ErrorDetail.fieldErrors msgs)) =>
            String.intercalate "; " msgs
          | some (some (ErrorDetail.text t)) => t
          | _ => "Upload failed with status " ++ toString r.status
        else "Upload failed with status " ++ toString r.status)
    else if r.isJson = false then Except.ok (AckPayload.raw bodyText)
    else Except.ok jsonAck

/-- `fetchUploadStatus` (`api.js` lines 87-124).  A non-JSON success
response resolves with `{ raw: text }`, i.e. a status object carrying no
lifecycle state at all. -/
def fetchUploadStatusResult (ticketId : String) (r : HttpResponse)
    (payload : StatusResponse) : Except String StatusResponse :=
  if ticketId = "" then
    Except.error "ticketId is required for status polling."
  else if r.ok = false then
    Except.error
      (if r.isJson then
        match r.errorJson with
        | some (some (ErrorDetail.fieldErrors msgs)) =>
          String.intercalate "; " msgs
        | some (some (ErrorDetail.text t)) => t
        | _ => "Status check failed with status " ++ toString r.status
      else "Status check failed with status " ++ toString r.status)
  else if r.isJson = false then
    Except.ok { state := none, progress := none, labelMeta := none }
  else Except.ok payload

/-- `cancelTicket` (`api.js` lines 132-169). -/
def cancelTicketResult (ticketId : String) (r : HttpResponse) :
    Except String Unit :=
  if ticketId = "" then
    Except.error "ticketId is required to cancel a ticket."
  else if r.ok = false then
    Except.error
      (if r.isJson then
        match r.errorJson with
        | some (some (ErrorDetail.fieldErrors msgs)) =>
          String.intercalate "; " msgs
        | some (some (ErrorDetail.text t)) => t
        | _ => "Cancel failed with status " ++ toString r.status
      else "Cancel failed with status " ++ toString r.status)
  else Except.ok ()

/-- `downloadOutput` (`api.js` lines 177-213): on success resolves with
the blob and the suggested filename `<ticketId>_output.zip` (the
filename is the value returned here). -/
def downloadOutputResult (ticketId : String) (r : HttpResponse) :
    Except String String :=
  if ticketId = "" then
    Except.error "ticketId is required to download output."
  else if r.ok = false then
    Except.error
      (if r.isJson then
        match r.errorJson with
        | some (some (ErrorDetail.fieldErrors msgs)) =>
          String.intercalate "; " msgs
        | some (some (ErrorDetail.text t)) => t
        | _ => "Download failed with status " ++ toString r.status
      else "Download failed with status " ++ toString r.status)
  else Except.ok (ticketId ++ "_output.zip")

/-! Helper lemmas about the embedded operations. -/

lemma data_append_eq (a b : String) : (a ++ b).data = a.data ++ b.data := by
  cases a
  cases b
  rfl

lemma append_ne_of_head_ne (c : Char) (cs : List Char) (p rest q : String)
    (d : Char) (ds : List Char) (hp : p.data = c :: cs)
    (hq : q.data = d :: ds) (hc : c ≠ d) : p ++ rest ≠ q := by
  intro h
  have hd := congrArg String.data h
  rw [data_append_eq, hp, hq, List.cons_append] at hd
  exact hc (List.head_eq_of_cons_eq hd)

lemma stateLog_ne_header (b : String) :
    "State: " ++ b ≠ "Label metadata:" :=
  append_ne_of_head_ne 'S' "tate: ".data _ b _ 'L' "abel metadata:".data
    rfl rfl (by decide)

lemma progressLog_ne_header (b : String) :
    "Upload progress: " ++ b ≠ "Label metadata:" :=
  append_ne_of_head_ne 'U' "pload progress: ".data _ b _ 'L'
    "abel metadata:".data rfl rfl (by decide)

lemma pollErrLog_ne_header (b : String) :
    "Status polling error: " ++ b ≠ "Label metadata:" :=
  append_ne_of_head_ne 'S' "tatus polling error: ".data _ b _ 'L'
    "abel metadata:".data rfl rfl (by decide)

lemma indent_ne_header (b : String) :
    "  " ++ b ≠ "Label metadata:" :=
  append_ne_of_head_ne ' ' " ".data _ b _ 'L' "abel metadata:".data
    rfl rfl (by decide)

lemma stop_fst (s : FrontendState) :
    (stopStatusPolling s).1 =
      { s with statusPollTimeoutId := none, statusPollIntervalId := none } :=
  rfl

lemma stop_snd_no_schedule (s : FrontendState) :
    ∀ e ∈ (stopStatusPolling s).2, isScheduleEffect e = false := by
  intro e he
  unfold stopStatusPolling at he
  rcases h1 : s.statusPollTimeoutId with _ | a <;>
    rcases h2 : s.statusPollIntervalId with _ | b <;>
      rw [h1, h2] at he <;> simp at he
  · simp [he, isScheduleEffect]
  · simp [he, isScheduleEffect]
  · rcases he with h | h <;> simp [h, isScheduleEffect]

lemma stop_mem_clearTimeout (s : FrontendState) (a : Nat)
    (h : s.statusPollTimeoutId = some a) :
    Effect.clearTimeoutE a ∈ (stopStatusPolling s).2 := by
  unfold stopStatusPolling
  rw [h]
  rcases s.statusPollIntervalId with _ | b <;> simp

lemma stop_mem_clearInterval (s : FrontendState) (a : Nat)
    (h : s.statusPollIntervalId = some a) :
    Effect.clearIntervalE a ∈ (stopStatusPolling s).2 := by
  unfold stopStatusPolling
  rw [h]
  rcases s.statusPollTimeoutId with _ | b <;> simp

lemma stop_count_header (s : FrontendState) :
    countLabelMetaHeader (stopStatusPolling s).2 = 0 := by
  unfold stopStatusPolling countLabelMetaHeader
  rcases s.statusPollTimeoutId with _ | a <;>
    rcases s.statusPollIntervalId with _ | b <;> simp

lemma ne_header_of_head (x : String) (h : x.data.head? ≠ some 'L') :
    x ≠ "Label metadata:" := by
  intro he
  apply h
  rw [he]
  rfl

lemma head_append (p rest : String) (c : Char) (h : p.data.head? = some c) :
    (p ++ rest).data.head? = some c := by
  rw [data_append_eq]
  cases hp : p.data with
  | nil => rw [hp] at h; simp at h
  | cons a l =>
    rw [hp] at h
    injection h with h
    subst h
    rfl

lemma lit_append_ne_header (p rest : String) (c : Char)
    (hp : p.data.head? = some c) (hc : c ≠ 'L') :
    p ++ rest ≠ "Label metadata:" := by
  apply ne_header_of_head
  rw [head_append p rest c hp]
  simp [hc]

lemma label_line_ne_header (nm cnt : String) :
    "    - " ++ nm ++ ": " ++ cnt ≠ "Label metadata:" := by
  apply ne_header_of_head
  rw [head_append _ cnt ' '
        (head_append _ ": " ' ' (head_append "    - " nm ' ' rfl))]
  simp

lemma countHeader_append (a b : List Effect) :
    countLabelMetaHeader (a ++ b)
      = countLabelMetaHeader a + countLabelMetaHeader b :=
  List.countP_append _ _ _

lemma countHeader_single_ne (x : Effect)
    (hx : x ≠ Effect.appendLogE "Label metadata:") :
    countLabelMetaHeader [x] = 0 := by
  unfold countLabelMetaHeader
  simp [List.countP_cons, hx]

lemma labelMetaEffects_count (meta : LabelMeta) :
    countLabelMetaHeader (labelMetaEffects meta) = 1 := by
  unfold labelMetaEffects
  rw [countHeader_append, countHeader_append, countHeader_append]
  have h1 : countLabelMetaHeader [Effect.appendLogE "Label metadata:"] = 1 := by
    unfold countLabelMetaHeader
    simp
  have h2 : countLabelMetaHeader
      (match meta.imageCount with
       | some n => [Effect.appendLogE ("  Images: " ++ toString n)]
       | none => []) = 0 := by
    cases meta.imageCount with
    | none => rfl
    | some n =>
      exact countHeader_single_ne _
        (by simp [lit_append_ne_header "  Images: " (toString n) ' ' rfl])
  have h3 : countLabelMetaHeader
      (match meta.boxCount with
       | some n => [Effect.appendLogE ("  Boxes: " ++ toString n)]
       | none => []) = 0 := by
    cases meta.boxCount with
    | none => rfl
    | some n =>
      exact countHeader_single_ne _
        (by simp [lit_append_ne_header "  Boxes: " (toString n) ' ' rfl])
  have h4 : countLabelMetaHeader
      (let ls := meta.labels.getD []
       if ls.length > 0 then
         Effect.appendLogE "  Labels:" ::
           ls.map (fun l =>
             Effect.appendLogE
               ("    - " ++ l.name.getD "unknown" ++ ": " ++
                 toString (l.count.getD 0)))
       else []) = 0 := by
    by_cases hl : (meta.labels.getD []).length > 0
    · simp only [hl, if_true]
      unfold countLabelMetaHeader
      rw [List.countP_cons]
      have hmap : List.countP
          (fun e => decide (e = Effect.appendLogE "Label metadata:"))
          ((meta.labels.getD []).map (fun l =>
            Effect.appendLogE
              ("    - " ++ l.name.getD "unknown" ++ ": " ++
                toString (l.count.getD 0)))) = 0 := by
        rw [List.countP_eq_zero]
        intro e he
        rcases List.mem_map.mp he with ⟨l, _, rfl⟩
        simp [label_line_ne_header (l.name.getD "unknown")
                (toString (l.count.getD 0))]
      simp [hmap]
    · simp only [hl, if_false]
      rfl
  rw [h1, h2, h3, h4]

/-- Bookkeeping potential for the once-per-ticket label-metadata flag. -/
def metaPotential (s : FrontendState) : Nat :=
  if s.labelMetaShown then 0 else 1

lemma stateChangeLog_count0 (s : FrontendState) (b : String) :
    countLabelMetaHeader (stateChangeLog s b).2 = 0 := by
  unfold stateChangeLog
  split
  · exact countHeader_single_ne _ (by simp [stateLog_ne_header b])
  · rfl

lemma stateChangeLog_flag (s : FrontendState) (b : String) :
    (stateChangeLog s b).1.labelMetaShown = s.labelMetaShown := by
  unfold stateChangeLog
  split <;> rfl

lemma progressLog_count0 (s : FrontendState) (pct : Option Int) :
    countLabelMetaHeader (progressLog s pct).2 = 0 := by
  unfold progressLog
  rcases pct with _ | p
  · rfl
  · dsimp only
    by_cases h : s.lastUploadProgressPct ≠ some p
    · rw [if_pos h]
      exact countHeader_single_ne _
        (by simp [lit_append_ne_header ("Upload progress: " ++ toString p)
                    "%" 'U' (head_append "Upload progress: " (toString p) 'U' rfl)
                    (by decide)])
    · rw [if_neg h]
      rfl

lemma progressLog_flag (s : FrontendState) (pct : Option Int) :
    (progressLog s pct).1.labelMetaShown = s.labelMetaShown := by
  unfold progressLog
  rcases pct with _ | p
  · rfl
  · by_cases h : s.lastUploadProgressPct ≠ some p <;> simp [h]

lemma terminalStop_count0 (s : FrontendState) (b : String) :
    countLabelMetaHeader (terminalStop s b).2 = 0 := by
  unfold terminalStop
  split
  · exact stop_count_header s
  · rfl

lemma terminalStop_flag (s : FrontendState) (b : String) :
    (terminalStop s b).1.labelMetaShown = s.labelMetaShown := by
  unfold terminalStop
  split <;> rfl

lemma countHeader_cons (x : Effect) (l : List Effect) :
    countLabelMetaHeader (x :: l)
      = countLabelMetaHeader l
        + (if x = Effect.appendLogE "Label metadata:" then 1 else 0) := by
  unfold countLabelMetaHeader
  rw [List.countP_cons]
  by_cases h : x = Effect.appendLogE "Label metadata:" <;> simp [h]

lemma countHeader_nil : countLabelMetaHeader [] = 0 := rfl

lemma countHeader_cons_show (k m : String) (l : List Effect) :
    countLabelMetaHeader (Effect.showStatusE k m :: l)
      = countLabelMetaHeader l := by
  rw [countHeader_cons]
  simp

lemma countHeader_cons_button (v : ButtonView) (l : List Effect) :
    countLabelMetaHeader (Effect.buttonE v :: l)
      = countLabelMetaHeader l := by
  rw [countHeader_cons]
  simp

lemma metaPotential_congr (a b : FrontendState)
    (h : a.labelMetaShown = b.labelMetaShown) :
    metaPotential a = metaPotential b := by
  unfold metaPotential
  rw [h]

lemma metaSurface_le (s : FrontendState) (lm : Option LabelMeta) :
    countLabelMetaHeader (metaSurface s lm).2
      + metaPotential (metaSurface s lm).1 ≤ metaPotential s := by
  unfold metaSurface metaPotential
  cases lm with
  | none =>
    simp [countLabelMetaHeader]
  | some meta =>
    by_cases h : s.labelMetaShown = false
    · simp [h, labelMetaEffects_count]
    · have h2 : s.labelMetaShown = true := by
        cases hb : s.labelMetaShown
        · exact absurd hb h
        · rfl
      simp [h2, countLabelMetaHeader]

lemma start_interval_none (s : FrontendState)
    (h : s.statusPollIntervalId = none) :
    (startStatusPolling s).1.statusPollIntervalId = none := by
  unfold startStatusPolling
  split
  · exact h
  · rfl

lemma start_ticketState (s : FrontendState) :
    (startStatusPolling s).1.ticketState = s.ticketState := by
  unfold startStatusPolling
  split <;> rfl

lemma start_flag (s : FrontendState) :
    (startStatusPolling s).1.labelMetaShown = s.labelMetaShown := by
  unfold startStatusPolling
  split <;> rfl

lemma start_timeout_some (s : FrontendState)
    (ht : strOptTruthy s.ticketId = true) :
    (startStatusPolling s).1.statusPollTimeoutId = some s.nextTimerId := by
  unfold startStatusPolling
  rw [if_neg (by simp [ht])]
  rfl

lemma start_mem_schedule (s : FrontendState)
    (ht : strOptTruthy s.ticketId = true) :
    Effect.setTimeoutE s.nextTimerId ∈ (startStatusPolling s).2 := by
  unfold startStatusPolling
  rw [if_neg (by simp [ht])]
  simp [stopStatusPolling]

lemma countP_sched_zero_of (l : List Effect)
    (h : ∀ e ∈ l, isScheduleEffect e = false) :
    List.countP isScheduleEffect l = 0 :=
  List.countP_eq_zero.mpr (by intro a ha; simp [h a ha])

lemma start_countP_sched (s : FrontendState) :
    List.countP isScheduleEffect (startStatusPolling s).2 ≤ 1 := by
  unfold startStatusPolling
  split
  · simp
  · rw [List.countP_append,
        countP_sched_zero_of _ (stop_snd_no_schedule s)]
    simp [isScheduleEffect]

lemma reset_no_schedule (s : FrontendState) :
    ∀ e ∈ (resetFrontendState s).2, isScheduleEffect e = false := by
  intro e he
  unfold resetFrontendState at he
  dsimp only at he
  rcases List.mem_append.mp he with h | h
  · exact stop_snd_no_schedule s e h
  · fin_cases h <;> rfl

lemma submitCommon_no_schedule (s : FrontendState) (tid : String) :
    ∀ e ∈ submitCommonEffects s tid, isScheduleEffect e = false := by
  intro e he
  unfold submitCommonEffects at he
  rcases List.mem_append.mp he with h | h
  · rcases List.mem_append.mp h with h2 | h2
    · fin_cases h2 <;> rfl
    · exact stop_snd_no_schedule _ e h2
  · fin_cases h <;> rfl

lemma submitCommon_mem_clearTimeout (s : FrontendState) (tid : String)
    (a : Nat) (h : s.statusPollTimeoutId = some a) :
    Effect.clearTimeoutE a ∈ submitCommonEffects s tid := by
  unfold submitCommonEffects
  refine List.mem_append.mpr (Or.inl (List.mem_append.mpr (Or.inr ?_)))
  exact stop_mem_clearTimeout _ a h

lemma submitCommon_mem_clearInterval (s : FrontendState) (tid : String)
    (a : Nat) (h : s.statusPollIntervalId = some a) :
    Effect.clearIntervalE a ∈ submitCommonEffects s tid := by
  unfold submitCommonEffects
  refine List.mem_append.mpr (Or.inl (List.mem_append.mpr (Or.inr ?_)))
  exact stop_mem_clearInterval _ a h

lemma poll_step_meta (s : FrontendState) (out : PollOutcome) :
    countLabelMetaHeader (pollStatusOnce s out).2
      + metaPotential (pollStatusOnce s out).1 ≤ metaPotential s := by
  unfold pollStatusOnce
  by_cases ht : strOptTruthy s.ticketId = false
  · rw [if_pos ht]
    simp [countHeader_nil]
  · rw [if_neg ht]
    cases out with
    | fail em =>
      dsimp only
      rw [countHeader_append, countHeader_append,
          countHeader_cons_show, countHeader_cons,
          countHeader_nil, countHeader_cons_button, countHeader_nil,
          stop_count_header]
      rw [if_neg (by simp [pollErrLog_ne_header])]
      have hpot : metaPotential (stopStatusPolling s).1 = metaPotential s :=
        metaPotential_congr _ _ rfl
      omega
    | ok resp =>
      dsimp only
      rw [countHeader_append, countHeader_append, countHeader_append,
          countHeader_append, countHeader_append]
      rw [stateChangeLog_count0, progressLog_count0, terminalStop_count0,
          countHeader_cons_show, countHeader_nil,
          countHeader_cons_button, countHeader_nil]
      have hms := metaSurface_le
        (progressLog
          (stateChangeLog
            { s with ticketState := backendStateOf resp }
            (backendStateOf resp)).1
          (resp.progress.map (fun p => round (p * 100)))).1
        resp.labelMeta
      have hpot2 : metaPotential
          (progressLog
            (stateChangeLog
              { s with ticketState := backendStateOf resp }
              (backendStateOf resp)).1
            (resp.progress.map (fun p => round (p * 100)))).1
          = metaPotential s := by
        unfold metaPotential
        rw [progressLog_flag, stateChangeLog_flag]
      have hpot4 : metaPotential
          (terminalStop
            (metaSurface
              (progressLog
                (stateChangeLog
                  { s with ticketState := backendStateOf resp }
                  (backendStateOf resp)).1
                (resp.progress.map (fun p => round (p * 100)))).1
              resp.labelMeta).1
            (backendStateOf resp)).1
          = metaPotential
            (metaSurface
              (progressLog
                (stateChangeLog
                  { s with ticketState := backendStateOf resp }
                  (backendStateOf resp)).1
                (resp.progress.map (fun p => round (p * 100)))).1
              resp.labelMeta).1 :=
        metaPotential_congr _ _ (terminalStop_flag _ _)
      omega

lemma pollRun_meta (s : FrontendState) (outs : List PollOutcome) :
    countLabelMetaHeader (pollRun s outs).2 ≤ metaPotential s := by
  induction outs generalizing s with
  | nil => simp [pollRun, countHeader_nil]
  | cons o rest ih =>
    have h1 := poll_step_meta s o
    have h2 := ih (pollStatusOnce s o).1
    unfold pollRun
    dsimp only
    rw [countHeader_append]
    omega

lemma handleStartUpload_invalid (s : FrontendState) (tid : String)
    (out : SubmitOutcome) (hv : isStateValidForUpload s = false) :
    handleStartUpload s tid out
      = (s, [Effect.showStatusE "error" invalidFormMsg]) := by
  unfold handleStartUpload
  rw [if_neg (by simp [hv])]

lemma handleStartUpload_trace (s : FrontendState) (tid : String)
    (out : SubmitOutcome) (hv : isStateValidForUpload s = true) :
    ∃ post,
      (handleStartUpload s tid out).2 = submitCommonEffects s tid ++ post := by
  unfold handleStartUpload
  rw [if_pos hv]
  cases out <;> exact ⟨_, rfl⟩

lemma submitCommon_mem_submit (s : FrontendState) (tid : String) :
    Effect.submitE (targetFormatToSend s) tid ∈ submitCommonEffects s tid := by
  unfold submitCommonEffects
  simp

/-! Concrete sample states used by the closed witnesses below. -/

/-- A filled-in form for a plain conversion job. -/
def sampleConvertForm : FrontendState :=
  { initState with
      file := some "a.zip"
      inputFormat := "cvat_images_1_1"
      targetFormat := "yolo"
      featureType := "convert_only" }

/-- A filled-in form for a crop job, with no target format selected. -/
def sampleCropForm : FrontendState :=
  { initState with
      file := some "a.zip"
      inputFormat := "cvat_images_1_1"
      targetFormat := ""
      featureType := "crop_objects" }

/-- A state with an active ticket in mid-processing, with both poll
timers live. -/
def samplePollingState : FrontendState :=
  { sampleConvertForm with
      ticketId := some "t1"
      ticketState := "processing_dataset"
      statusPollTimeoutId := some 3
      statusPollIntervalId := some 7
      nextTimerId := 8 }

/-! Claim theorems. -/

/-- C1: a form snapshot with feature type `crop_objects` passes validation
with no target format selected and the transport submit is invoked with
`target_format = ""`; with feature type `convert_only` or
`resize_and_convert` and no target format, validation fails, no transport
submit happens and an error message is surfaced; and validation also fails
whenever the file, the input format or the feature type is missing. -/
theorem crop_objects_validation_and_submit (s : FrontendState) (tid : String)
    (out : SubmitOutcome) :
    (s.file ≠ none → s.inputFormat ≠ "" → s.featureType = "crop_objects" →
      s.targetFormat = "" →
      isStateValidForUpload s = true ∧
      Effect.submitE "" tid ∈ (handleStartUpload s tid out).2) ∧
    ((s.featureType = "convert_only" ∨ s.featureType = "resize_and_convert") →
      s.targetFormat = "" →
      isStateValidForUpload s = false ∧
      (∀ tf t2, Effect.submitE tf t2 ∉ (handleStartUpload s tid out).2) ∧
      Effect.showStatusE "error" invalidFormMsg
        ∈ (handleStartUpload s tid out).2) ∧
    ((s.file = none ∨ s.inputFormat = "" ∨ s.featureType = "") →
      isStateValidForUpload s = false ∧
      (∀ tf t2, Effect.submitE tf t2 ∉ (handleStartUpload s tid out).2) ∧
      Effect.showStatusE "error" invalidFormMsg
        ∈ (handleStartUpload s tid out).2) := by
  refine ⟨?_, ?_, ?_⟩
  · intro hf hin hft htf
    have hvalid : isStateValidForUpload s = true := by
      unfold isStateValidForUpload
      rw [if_neg (by simp [hf, hin, hft]), if_pos hft]
    refine ⟨hvalid, ?_⟩
    rcases handleStartUpload_trace s tid out hvalid with ⟨post, hpost⟩
    rw [hpost]
    refine List.mem_append.mpr (Or.inl ?_)
    have hmem := submitCommon_mem_submit s tid
    have htfs : targetFormatToSend s = "" := by
      unfold targetFormatToSend
      rw [if_pos hft]
    rw [htfs] at hmem
    exact hmem
  · intro hft htf
    have hinv : isStateValidForUpload s = false := by
      unfold isStateValidForUpload
      by_cases hc : s.file = none ∨ s.inputFormat = "" ∨ s.featureType = ""
      · rw [if_pos hc]
      · rw [if_neg hc]
        rcases hft with h | h <;> simp [h, htf]
    rw [handleStartUpload_invalid s tid out hinv]
    refine ⟨hinv, ?_, ?_⟩
    · intro tf t2
      simp
    · simp
  · intro hc
    have hinv : isStateValidForUpload s = false := by
      unfold isStateValidForUpload
      rw [if_pos hc]
    rw [handleStartUpload_invalid s tid out hinv]
    refine ⟨hinv, ?_, ?_⟩
    · intro tf t2
      simp
    · simp

/-- Witness for C1 at a concrete crop-mode form snapshot. -/
theorem crop_objects_validation_and_submit_witness :
    isStateValidForUpload sampleCropForm = true ∧
    Effect.submitE "" "t1"
      ∈ (handleStartUpload sampleCropForm "t1"
          (SubmitOutcome.ok none none none)).2 :=
  (crop_objects_validation_and_submit sampleCropForm "t1"
      (SubmitOutcome.ok none none none)).1
    (by decide) (by decide) (by decide) (by decide)

lemma stateChangeLog_interval (s : FrontendState) (b : String) :
    (stateChangeLog s b).1.statusPollIntervalId = s.statusPollIntervalId := by
  unfold stateChangeLog
  split <;> rfl

lemma stateChangeLog_ticketState (s : FrontendState) (b : String) :
    (stateChangeLog s b).1.ticketState = s.ticketState := by
  unfold stateChangeLog
  split <;> rfl

lemma progressLog_interval (s : FrontendState) (pct : Option Int) :
    (progressLog s pct).1.statusPollIntervalId = s.statusPollIntervalId := by
  unfold progressLog
  rcases pct with _ | p
  · rfl
  · by_cases h : s.lastUploadProgressPct ≠ some p <;> simp [h]

lemma progressLog_ticketState (s : FrontendState) (pct : Option Int) :
    (progressLog s pct).1.ticketState = s.ticketState := by
  unfold progressLog
  rcases pct with _ | p
  · rfl
  · by_cases h : s.lastUploadProgressPct ≠ some p <;> simp [h]

lemma metaSurface_interval (s : FrontendState) (lm : Option LabelMeta) :
    (metaSurface s lm).1.statusPollIntervalId = s.statusPollIntervalId := by
  unfold metaSurface
  rcases lm with _ | meta
  · rfl
  · dsimp only
    by_cases h : s.labelMetaShown = false <;> simp [h]

lemma metaSurface_ticketState (s : FrontendState) (lm : Option LabelMeta) :
    (metaSurface s lm).1.ticketState = s.ticketState := by
  unfold metaSurface
  rcases lm with _ | meta
  · rfl
  · dsimp only
    by_cases h : s.labelMetaShown = false <;> simp [h]

lemma terminalStop_interval (s : FrontendState) (b : String) :
    (terminalStop s b).1.statusPollIntervalId =
      if b = "error" ∨ b = "cancelled" ∨ b = "unknown" then none
      else s.statusPollIntervalId := by
  unfold terminalStop
  by_cases h : b = "error" ∨ b = "cancelled" ∨ b = "unknown" <;>
    simp [h, stopStatusPolling]

lemma terminalStop_ticketState (s : FrontendState) (b : String) :
    (terminalStop s b).1.ticketState = s.ticketState := by
  unfold terminalStop
  split <;> rfl

lemma poll_ok_interval (s : FrontendState) (resp : StatusResponse)
    (ht : strOptTruthy s.ticketId = true) :
    (pollStatusOnce s (PollOutcome.ok resp)).1.statusPollIntervalId =
      if backendStateOf resp = "error" ∨ backendStateOf resp = "cancelled" ∨
          backendStateOf resp = "unknown"
      then none else s.statusPollIntervalId := by
  unfold pollStatusOnce
  rw [if_neg (by simp [ht])]
  dsimp only
  rw [terminalStop_interval, metaSurface_interval, progressLog_interval,
      stateChangeLog_interval]

lemma poll_ok_ticketState (s : FrontendState) (resp : StatusResponse)
    (ht : strOptTruthy s.ticketId = true) :
    (pollStatusOnce s (PollOutcome.ok resp)).1.ticketState
      = backendStateOf resp := by
  unfold pollStatusOnce
  rw [if_neg (by simp [ht])]
  dsimp only
  rw [terminalStop_ticketState, metaSurface_ticketState,
      progressLog_ticketState, stateChangeLog_ticketState]

/-- A response reporting a terminal failure state. -/
def respError : StatusResponse :=
  { state := some "error", progress := none, labelMeta := none }

/-- A response reporting the ready state. -/
def respReady : StatusResponse :=
  { state := some "ready", progress := none, labelMeta := none }

/-- C2: a poll step of an active Job stops the poll loop exactly when the
reported lifecycle state is `error`, `cancelled` or `unknown`; in
particular a poll reporting `ready` leaves the interval timer alive, so
polling continues while the Job is ready. -/
theorem poll_stops_iff_terminal (s : FrontendState) (resp : StatusResponse)
    (k : Nat) (ht : strOptTruthy s.ticketId = true)
    (hk : s.statusPollIntervalId = some k) :
    ((pollStatusOnce s (PollOutcome.ok resp)).1.statusPollIntervalId = none ↔
      (backendStateOf resp = "error" ∨ backendStateOf resp = "cancelled" ∨
        backendStateOf resp = "unknown")) ∧
    (backendStateOf resp = "ready" →
      (pollStatusOnce s (PollOutcome.ok resp)).1.statusPollIntervalId
        = some k) := by
  have h1 := poll_ok_interval s resp ht
  constructor
  · rw [h1]
    by_cases hcond : backendStateOf resp = "error" ∨
        backendStateOf resp = "cancelled" ∨ backendStateOf resp = "unknown"
    · simp [hcond]
    · simp [hcond, hk]
  · intro hr
    have hcond : ¬(backendStateOf resp = "error" ∨
        backendStateOf resp = "cancelled" ∨
        backendStateOf resp = "unknown") := by
      rw [hr]
      decide
    rw [h1, if_neg hcond, hk]

/-- Witness for C2: a concrete `error` poll stops the loop, a concrete
`ready` poll keeps the interval timer. -/
theorem poll_stops_iff_terminal_witness :
    (pollStatusOnce samplePollingState
      (PollOutcome.ok respError)).1.statusPollIntervalId = none ∧
    (pollStatusOnce samplePollingState
      (PollOutcome.ok respReady)).1.statusPollIntervalId = some 7 := by
  constructor
  · exact (poll_stops_iff_terminal samplePollingState respError 7
      (by decide) rfl).1.mpr (Or.inl (by decide))
  · exact (poll_stops_iff_terminal samplePollingState respReady 7
      (by decide) rfl).2 (by decide)

lemma handleStartUpload_countP_sched (s : FrontendState) (tid : String)
    (out : SubmitOutcome) (hv : isStateValidForUpload s = true) :
    List.countP isScheduleEffect (handleStartUpload s tid out).2 ≤ 1 := by
  unfold handleStartUpload
  rw [if_pos hv]
  cases out with
  | ok msg st ack =>
    dsimp only
    rw [List.countP_append,
        countP_sched_zero_of _ (submitCommon_no_schedule s tid),
        List.countP_append, List.countP_append]
    simp only [List.countP_cons, List.countP_nil, isScheduleEffect]
    simp
    exact start_countP_sched _
  | fail em =>
    dsimp only
    rw [List.countP_append,
        countP_sched_zero_of _ (submitCommon_no_schedule s tid),
        List.countP_append, List.countP_append,
        countP_sched_zero_of _ (reset_no_schedule (submitLockedState s tid))]
    simp [isScheduleEffect]

lemma handleStartUpload_interval_none (s : FrontendState) (tid : String)
    (out : SubmitOutcome) (hv : isStateValidForUpload s = true) :
    (handleStartUpload s tid out).1.statusPollIntervalId = none := by
  unfold handleStartUpload
  rw [if_pos hv]
  cases out with
  | ok msg st ack =>
    dsimp only
    apply start_interval_none
    split <;> rfl
  | fail em =>
    dsimp only
    rfl

/-- C3: a submit handler execution first cancels any previously scheduled
poll timers — all clear-timer actions for the old timeout/interval ids lie
in the schedule-free common prefix of the trace — and schedules at most one
new poll timer, leaving no interval timer installed, so at most one poll
loop exists afterwards. -/
theorem submit_cancels_previous_poll_timers (s : FrontendState)
    (tid : String) (out : SubmitOutcome)
    (hv : isStateValidForUpload s = true) :
    ∃ post,
      (handleStartUpload s tid out).2 = submitCommonEffects s tid ++ post ∧
      (∀ e ∈ submitCommonEffects s tid, isScheduleEffect e = false) ∧
      (∀ a, s.statusPollTimeoutId = some a →
        Effect.clearTimeoutE a ∈ submitCommonEffects s tid) ∧
      (∀ a, s.statusPollIntervalId = some a →
        Effect.clearIntervalE a ∈ submitCommonEffects s tid) ∧
      List.countP isScheduleEffect (handleStartUpload s tid out).2 ≤ 1 ∧
      (handleStartUpload s tid out).1.statusPollIntervalId = none := by
  rcases handleStartUpload_trace s tid out hv with ⟨post, hpost⟩
  exact ⟨post, hpost, submitCommon_no_schedule s tid,
    fun a ha => submitCommon_mem_clearTimeout s tid a ha,
    fun a ha => submitCommon_mem_clearInterval s tid a ha,
    handleStartUpload_countP_sched s tid out hv,
    handleStartUpload_interval_none s tid out hv⟩

/-- Witness for C3 at a state with both poll timers live. -/
theorem submit_cancels_previous_poll_timers_witness :
    Effect.clearTimeoutE 3 ∈ submitCommonEffects samplePollingState "t2" ∧
    Effect.clearIntervalE 7 ∈ submitCommonEffects samplePollingState "t2" ∧
    (handleStartUpload samplePollingState "t2"
      (SubmitOutcome.ok none none none)).1.statusPollIntervalId = none := by
  obtain ⟨post, h1, h2, h3, h4, h5, h6⟩ :=
    submit_cancels_previous_poll_timers samplePollingState "t2"
      (SubmitOutcome.ok none none none) (by decide)
  exact ⟨h3 3 rfl, h4 7 rfl, h6⟩

/-- C4: over any run of polls, the label-metadata block is surfaced at
most once — never when the once-per-ticket flag is already set — and any
submit handler run either leaves the state untouched (validation failure)
or resets the flag so the next Job can surface its own metadata once. -/
theorem label_meta_surfaced_at_most_once :
    (∀ (s : FrontendState) (outs : List PollOutcome),
      countLabelMetaHeader (pollRun s outs).2
        ≤ (if s.labelMetaShown = true then 0 else 1)) ∧
    (∀ (s : FrontendState) (tid : String) (out : SubmitOutcome),
      (handleStartUpload s tid out).1.labelMetaShown = false ∨
      (handleStartUpload s tid out).1 = s) := by
  constructor
  · intro s outs
    have h := pollRun_meta s outs
    unfold metaPotential at h
    exact h
  · intro s tid out
    by_cases hv : isStateValidForUpload s = true
    · left
      unfold handleStartUpload
      rw [if_pos hv]
      cases out with
      | ok msg st ack =>
        dsimp only
        rw [start_flag]
        split <;> rfl
      | fail em =>
        dsimp only
        rfl
    · right
      have hf : isStateValidForUpload s = false := by
        cases h : isStateValidForUpload s
        · rfl
        · exact absurd h hv
      rw [handleStartUpload_invalid s tid out hf]

/-- C5 counterexample: a successful submit acknowledgement carrying no
state field leaves the Job state at `uploading`, not at the claimed
default `uploaded`. -/
theorem submit_default_state_counterexample :
    (handleStartUpload sampleConvertForm "t1"
      (SubmitOutcome.ok none none none)).1.ticketState = "uploading" ∧
    (handleStartUpload sampleConvertForm "t1"
      (SubmitOutcome.ok none none none)).1.ticketState ≠ "uploaded" := by
  decide

/-- C5 amended: on transport submit success the controller adopts the
server-reported state when the acknowledgement carries a non-empty one,
and otherwise keeps the Job state at `uploading` (the value set when the
submit began) — not `uploaded` — and then begins polling (the initial
poll timeout is scheduled). -/
theorem submit_adopts_ack_state (s : FrontendState) (tid : String)
    (msg st ack : Option String) (hv : isStateValidForUpload s = true)
    (ht : tid ≠ "") :
    (handleStartUpload s tid (SubmitOutcome.ok msg st ack)).1.ticketState
      = (match ack with
         | some v => if v ≠ "" then v else "uploading"
         | none => "uploading") ∧
    (∃ k, (handleStartUpload s tid
      (SubmitOutcome.ok msg st ack)).1.statusPollTimeoutId = some k) ∧
    (∃ e ∈ (handleStartUpload s tid (SubmitOutcome.ok msg st ack)).2,
      isScheduleEffect e = true) := by
  have htruthy : strOptTruthy
      (if strOptTruthy ack
       then { submitLockedState s tid with ticketState := ack.getD "" }
       else submitLockedState s tid).ticketId = true := by
    split
    · show strOptTruthy (some tid) = true
      simp [strOptTruthy, ht]
    · show strOptTruthy (some tid) = true
      simp [strOptTruthy, ht]
  unfold handleStartUpload
  rw [if_pos hv]
  dsimp only
  refine ⟨?_, ?_, ?_⟩
  · rw [start_ticketState]
    rcases ack with _ | v
    · rfl
    · by_cases hvv : v ≠ ""
      · rw [if_pos (by simp [strOptTruthy, hvv])]
        dsimp only
        rw [if_pos hvv]
        rfl
      · rw [if_neg (by simp [strOptTruthy, hvv])]
        dsimp only
        rw [if_neg hvv]
        rfl
  · exact ⟨_, start_timeout_some _ htruthy⟩
  · refine ⟨Effect.setTimeoutE
      (if strOptTruthy ack
       then { submitLockedState s tid with ticketState := ack.getD "" }
       else submitLockedState s tid).nextTimerId, ?_, rfl⟩
    refine List.mem_append.mpr (Or.inr ?_)
    refine List.mem_append.mpr (Or.inl ?_)
    refine List.mem_append.mpr (Or.inr ?_)
    exact start_mem_schedule _ htruthy

/-- Witness for C5 (amended): a concrete acknowledgement without a state
field keeps `uploading`, and polling is scheduled. -/
theorem submit_adopts_ack_state_witness :
    (handleStartUpload sampleConvertForm "t1"
      (SubmitOutcome.ok none none none)).1.ticketState = "uploading" ∧
    ∃ k, (handleStartUpload sampleConvertForm "t1"
      (SubmitOutcome.ok none none none)).1.statusPollTimeoutId = some k := by
  obtain ⟨h1, h2, h3⟩ := submit_adopts_ack_state sampleConvertForm "t1"
    none none none (by decide) (by decide)
  exact ⟨h1, h2⟩

/-- C6 counterexample: after a successful submit whose acknowledgement
carries no state, the reachable state has ticket state `uploading` with
the in-flight flag cleared, and the primary control offers Cancel
(enabled) and the click dispatches to the cancel handler — so cancel can
be initiated while the Job state is `uploading`. -/
theorem cancel_affordance_counterexample :
    ((handleStartUpload sampleConvertForm "t1"
      (SubmitOutcome.ok none none none)).1.ticketState = "uploading") ∧
    ((handleStartUpload sampleConvertForm "t1"
      (SubmitOutcome.ok none none none)).1.isUploading = false) ∧
    (refreshNextButtonState (handleStartUpload sampleConvertForm "t1"
      (SubmitOutcome.ok none none none)).1
      = { label := "Cancel", enabled := true }) ∧
    (clickAction (handleStartUpload sampleConvertForm "t1"
      (SubmitOutcome.ok none none none)).1 = ClickKind.cancelJob) := by
  decide

/-- C6 amended: while the submit HTTP request is in flight
(`isUploading`) the control is disabled and clicks are ignored; once it
is not in flight, the control offers Cancel, and the click dispatches to
cancel, exactly for the processing ticket states — a set which in this
code includes `uploading` itself, so only the in-flight flag (not the
`uploading` state) blocks cancelling, and for `uploaded`,
`extracting_label_meta`, `labels_meta_extracted` and `processing_dataset`
the control shows the cancel action. -/
theorem cancel_affordance_mapping (s : FrontendState)
    (ht : strOptTruthy s.ticketId = true) (hs : s.ticketState ≠ "idle") :
    (s.isUploading = true →
      refreshNextButtonState s = { label := "Uploading…", enabled := false } ∧
      clickAction s = ClickKind.ignore) ∧
    (s.isUploading = false →
      ((refreshNextButtonState s = { label := "Cancel", enabled := true }) ↔
        isProcessingTicketState s.ticketState = true) ∧
      ((clickAction s = ClickKind.cancelJob) ↔
        isProcessingTicketState s.ticketState = true)) := by
  have hcond : ¬(strOptTruthy s.ticketId = false ∨ s.ticketState = "idle") := by
    simp [ht, hs]
  refine ⟨fun hu => ⟨?_, ?_⟩, fun hu => ⟨?_, ?_⟩⟩
  · unfold refreshNextButtonState
    rw [if_neg hcond, if_pos hu]
  · unfold clickAction
    rw [if_pos hu]
  · unfold refreshNextButtonState
    rw [if_neg hcond, if_neg (by simp [hu])]
    by_cases hp : isProcessingTicketState s.ticketState = true
    · rw [if_pos hp]
      simp [hp]
    · rw [if_neg hp]
      simp only [hp, iff_false]
      by_cases hr : s.ticketState = "ready"
      · rw [if_pos hr]
        decide
      · rw [if_neg hr]
        decide
  · unfold clickAction
    rw [if_neg (by simp [hu]), if_neg hcond]
    by_cases hp : isProcessingTicketState s.ticketState = true
    · rw [if_pos hp]
      simp [hp]
    · rw [if_neg hp]
      simp only [hp, iff_false]
      by_cases hr : s.ticketState = "ready"
      · rw [if_pos hr]
        decide
      · rw [if_neg hr]
        decide

/-- Witness for C6 (amended) at a concrete `processing_dataset` state. -/
theorem cancel_affordance_mapping_witness :
    refreshNextButtonState samplePollingState
      = { label := "Cancel", enabled := true } ∧
    clickAction samplePollingState = ClickKind.cancelJob := by
  have h := (cancel_affordance_mapping samplePollingState
    (by decide) (by decide)).2 rfl
  exact ⟨h.1.mpr (by decide), h.2.mpr (by decide)⟩

/-- C7: with an active ticket, cancel and download both invoke their
transport operation with the active identifier and — whatever the
transport outcome — stop polling and reset the Job to idle with the
identifier cleared; download saves the payload under
`<ticketId>_output.zip` on success. -/
theorem cancel_download_always_reset (s : FrontendState) (tid : String)
    (ht : s.ticketId = some tid) (hne : tid ≠ "") :
    (∀ oc : CancelOutcome,
      Effect.cancelE tid ∈ (handleCancel s oc).2 ∧
      (handleCancel s oc).1.ticketId = none ∧
      (handleCancel s oc).1.ticketState = "idle" ∧
      (handleCancel s oc).1.statusPollTimeoutId = none ∧
      (handleCancel s oc).1.statusPollIntervalId = none) ∧
    (∀ od : DownloadOutcome,
      Effect.downloadE tid ∈ (handleDownload s od).2 ∧
      (handleDownload s od).1.ticketId = none ∧
      (handleDownload s od).1.ticketState = "idle" ∧
      (handleDownload s od).1.statusPollTimeoutId = none ∧
      (handleDownload s od).1.statusPollIntervalId = none) ∧
    Effect.saveBlobE (tid ++ "_output.zip")
      ∈ (handleDownload s DownloadOutcome.ok).2 := by
  have htr : strOptTruthy s.ticketId = true := by
    rw [ht]
    simp [strOptTruthy, hne]
  refine ⟨?_, ?_, ?_⟩
  · intro oc
    unfold handleCancel
    rw [if_neg (by simp [htr])]
    cases oc <;> exact ⟨by simp [ht], rfl, rfl, rfl, rfl⟩
  · intro od
    unfold handleDownload
    rw [if_neg (by simp [htr])]
    cases od <;> exact ⟨by simp [ht], rfl, rfl, rfl, rfl⟩
  · unfold handleDownload
    rw [if_neg (by simp [htr])]
    simp [ht]

/-- Witness for C7 at a concrete active-ticket state. -/
theorem cancel_download_always_reset_witness :
    Effect.cancelE "t1" ∈ (handleCancel samplePollingState CancelOutcome.ok).2 ∧
    (handleCancel samplePollingState CancelOutcome.ok).1.ticketState = "idle" ∧
    (handleDownload samplePollingState
      (DownloadOutcome.fail none)).1.ticketId = none ∧
    Effect.saveBlobE "t1_output.zip"
      ∈ (handleDownload samplePollingState DownloadOutcome.ok).2 := by
  obtain ⟨hc, hd, hsave⟩ := cancel_download_always_reset samplePollingState
    "t1" rfl (by decide)
  exact ⟨(hc CancelOutcome.ok).1, (hc CancelOutcome.ok).2.2.1,
    (hd (DownloadOutcome.fail none)).2.1, hsave⟩

/-- C8 counterexample: a poll response with the present but unexpected
lifecycle state `"banana"` is adopted verbatim — it is not mapped to
`unknown` — and does not stop the poll loop. -/
theorem poll_unexpected_state_counterexample :
    ((pollStatusOnce samplePollingState (PollOutcome.ok
      { state := some "banana", progress := none, labelMeta := none })).1.ticketState
        = "banana") ∧
    ((pollStatusOnce samplePollingState (PollOutcome.ok
      { state := some "banana", progress := none, labelMeta := none })).1.ticketState
        ≠ "unknown") ∧
    ((pollStatusOnce samplePollingState (PollOutcome.ok
      { state := some "banana", progress := none, labelMeta := none })).1.statusPollIntervalId
        = some 7) := by
  decide

/-- C8 amended: an absent (or empty) lifecycle state in a poll response —
including the stateless `{ raw: text }` object the transport returns for a
non-JSON success body — is mapped to `unknown`, which is terminal: the Job
state becomes `unknown` and the poll loop stops; a present non-empty state
string, expected or not, is adopted verbatim. -/
theorem absent_state_maps_to_unknown (s : FrontendState) (k : Nat)
    (resp : StatusResponse) (ht : strOptTruthy s.ticketId = true)
    (hk : s.statusPollIntervalId = some k) :
    ((resp.state = none ∨ resp.state = some "") →
      (pollStatusOnce s (PollOutcome.ok resp)).1.ticketState = "unknown" ∧
      (pollStatusOnce s (PollOutcome.ok resp)).1.statusPollIntervalId
        = none) ∧
    (∀ v, resp.state = some v → v ≠ "" →
      (pollStatusOnce s (PollOutcome.ok resp)).1.ticketState = v) ∧
    (∀ (t : String) (r : HttpResponse) (payload : StatusResponse),
      t ≠ "" → r.ok = true → r.isJson = false →
      fetchUploadStatusResult t r payload
        = Except.ok { state := none, progress := none, labelMeta := none }) := by
  refine ⟨?_, ?_, ?_⟩
  · intro h
    have hb : backendStateOf resp = "unknown" := by
      rcases h with h | h <;> simp [backendStateOf, h]
    refine ⟨?_, ?_⟩
    · rw [poll_ok_ticketState s resp ht, hb]
    · rw [poll_ok_interval s resp ht, if_pos (Or.inr (Or.inr hb))]
  · intro v hvs hvne
    have hb : backendStateOf resp = v := by
      simp [backendStateOf, hvs, hvne]
    rw [poll_ok_ticketState s resp ht, hb]
  · intro t r payload htne hok hj
    unfold fetchUploadStatusResult
    rw [if_neg htne, if_neg (by simp [hok]), if_pos hj]

/-- A non-JSON successful transport response. -/
def sampleRawResponse : HttpResponse :=
  { ok := true, status := 200, isJson := false, errorJson := none }

/-- Witness for C8 (amended): a concrete response with no state field. -/
theorem absent_state_maps_to_unknown_witness :
    (pollStatusOnce samplePollingState (PollOutcome.ok
      { state := none, progress := none, labelMeta := none })).1.ticketState
        = "unknown" ∧
    (pollStatusOnce samplePollingState (PollOutcome.ok
      { state := none, progress := none, labelMeta := none })).1.statusPollIntervalId
        = none ∧
    fetchUploadStatusResult "t9" sampleRawResponse respReady
      = Except.ok { state := none, progress := none, labelMeta := none } := by
  obtain ⟨h1, h2, h3⟩ := absent_state_maps_to_unknown samplePollingState 7
    { state := none, progress := none, labelMeta := none }
    (by decide) rfl
  exact ⟨(h1 (Or.inl rfl)).1, (h1 (Or.inl rfl)).2,
    h3 "t9" sampleRawResponse respReady (by decide) rfl rfl⟩

/-- C9: every transport operation maps a non-success response to a thrown
error whose message is the structured `detail` payload flattened to a
string (field-level messages joined by a semicolon) when one is present,
and otherwise a generic message synthesized from the numeric status —
stated as agreement of all four embedded wrappers with
`specNormalizedMessage`, the rule written from the spec's words. -/
theorem transport_error_normalization (r : HttpResponse) (h : r.ok = false) :
    ∀ (f t bodyText : String) (payload : StatusResponse) (ack : AckPayload),
      t ≠ "" →
      uploadDatasetResult (some f) r ack bodyText
        = Except.error (specNormalizedMessage
            ("Upload failed with status " ++ toString r.status) r) ∧
      fetchUploadStatusResult t r payload
        = Except.error (specNormalizedMessage
            ("Status check failed with status " ++ toString r.status) r) ∧
      cancelTicketResult t r
        = Except.error (specNormalizedMessage
            ("Cancel failed with status " ++ toString r.status) r) ∧
      downloadOutputResult t r
        = Except.error (specNormalizedMessage
            ("Download failed with status " ++ toString r.status) r) := by
  intro f t bodyText payload ack htne
  refine ⟨?_, ?_, ?_, ?_⟩
  · unfold uploadDatasetResult specNormalizedMessage
    dsimp only
    rw [if_pos h]
  · unfold fetchUploadStatusResult specNormalizedMessage
    rw [if_neg htne, if_pos h]
  · unfold cancelTicketResult specNormalizedMessage
    rw [if_neg htne, if_pos h]
  · unfold downloadOutputResult specNormalizedMessage
    rw [if_neg htne, if_pos h]

/-- A failing transport response with a FastAPI-style `detail` array. -/
def sampleErrResponse : HttpResponse :=
  { ok := false
    status := 422
    isJson := true
    errorJson := some (some (ErrorDetail.fieldErrors
      ["field a is required", "field b is bad"])) }

/-- Witness for C9: a concrete 422 with two field errors is flattened with
a semicolon by every wrapper. -/
theorem transport_error_normalization_witness :
    cancelTicketResult "t1" sampleErrResponse
      = Except.error "field a is required; field b is bad" ∧
    uploadDatasetResult (some "a.zip") sampleErrResponse
      (AckPayload.raw "x") "x"
      = Except.error "field a is required; field b is bad" := by
  have h := transport_error_normalization sampleErrResponse rfl
    "a.zip" "t1" "x" respReady (AckPayload.raw "x") (by decide)
  refine ⟨?_, ?_⟩
  · rw [h.2.2.1]
    rfl
  · rw [h.1]
    rfl

/-- C10: reset leaves the user's form selections (file, input format,
target format, feature type) unchanged while returning every Job-tracking
field to its initial value and clearing both poll timers. -/
theorem reset_preserves_form_fields (s : FrontendState) :
    (resetFrontendState s).1.file = s.file ∧
    (resetFrontendState s).1.inputFormat = s.inputFormat ∧
    (resetFrontendState s).1.targetFormat = s.targetFormat ∧
    (resetFrontendState s).1.featureType = s.featureType ∧
    (resetFrontendState s).1.ticketId = none ∧
    (resetFrontendState s).1.ticketState = "idle" ∧
    (resetFrontendState s).1.isUploading = false ∧
    (resetFrontendState s).1.labelMetaShown = false ∧
    (resetFrontendState s).1.lastStatusState = none ∧
    (resetFrontendState s).1.lastUploadProgressPct = none ∧
    (resetFrontendState s).1.statusPollTimeoutId = none ∧
    (resetFrontendState s).1.statusPollIntervalId = none :=
  ⟨rfl, rfl, rfl, rfl, rfl, rfl, rfl, rfl, rfl, rfl, rfl, rfl⟩





